import Mathlib

/-!
# upd8dns: the update decision loop of `main.go`

A shallow embedding of `updateCloudflareRecord` and of the loop of `runService`.
The Cloudflare client `api` is an explicit state machine: every call takes the
provider state and returns a response together with the next provider state.
Each run records the calls it issued, in order, as a list of `Event`s.
Console output (`fmt.Println`, `log.Printf`) is not modelled; `log.Fatalf`
is the event `Event.fatal` followed by nothing.
-/

set_option autoImplicit false

namespace Upd8dns

/-! ## Data model -/

/-- The fields of `cloudflare.DNSRecord` that `main.go` reads or writes. The Go field
`Type` is written `Type_` here and in the parameter structures below, since `Type`
is reserved. -/
structure DNSRecord where
  ID : String
  Type_ : String
  Name : String
  Content : String
  deriving DecidableEq, Repr

/-- Filters of `cloudflare.ListDNSRecordsParams`. In the zero value of Go every
filter is the empty string, which asks for every record of the zone. -/
structure ListDNSRecordsParams where
  Type_ : String
  Name : String
  Content : String
  deriving DecidableEq, Repr

/-- The Go composite literal `cloudflare.ListDNSRecordsParams` with no field set. -/
def ListDNSRecordsParams.zero : ListDNSRecordsParams := ⟨"", "", ""⟩

/-- The fields of `cloudflare.CreateDNSRecordParams` set at main.go:66-70. -/
structure CreateDNSRecordParams where
  Type_ : String
  Name : String
  Content : String
  deriving DecidableEq, Repr

/-- The fields of `cloudflare.UpdateDNSRecordParams` set at main.go:80-85. -/
structure UpdateDNSRecordParams where
  Type_ : String
  Name : String
  Content : String
  ID : String
  deriving DecidableEq, Repr

/-- The three operations of `*cloudflare.API` that `main.go` calls, as a state
machine over a provider state `σ`. Each takes the zone identifier and the
parameters and returns the response (or an error) and the next state. -/
structure API (σ : Type) where
  ListDNSRecords : σ → String → ListDNSRecordsParams → Except String (List DNSRecord) × σ
  CreateDNSRecord : σ → String → CreateDNSRecordParams → Except String DNSRecord × σ
  UpdateDNSRecord : σ → String → UpdateDNSRecordParams → Except String DNSRecord × σ

/-- What a run does that is visible from outside, in program order. The flag
`failed` of a call is `true` when the call returned a non-nil `err`. -/
inductive Event where
  | getPublicIP (failed : Bool)
  | ListDNSRecords (zoneID : String) (params : ListDNSRecordsParams) (failed : Bool)
  | CreateDNSRecord (zoneID : String) (params : CreateDNSRecordParams) (failed : Bool)
  | UpdateDNSRecord (zoneID : String) (params : UpdateDNSRecordParams) (failed : Bool)
  | tick
  | fatal
  deriving DecidableEq, Repr

/-- Whether control is still in the program (`running`) or the process has
terminated through `log.Fatal`/`log.Fatalf` (`exited`). -/
inductive Status where
  | running
  | exited
  deriving DecidableEq, Repr

/-- Result of running `updateCloudflareRecord` once. -/
structure Run (σ : Type) where
  events : List Event
  api : σ
  status : Status

/-! ## `updateCloudflareRecord` (main.go:41-93) -/

/-- The scan of main.go:54-60: `recordID` starts as the empty string and is set
to the ID of the first record whose type and name both match, then the loop
breaks. -/
def findRecordID (recordType recordName : String) : List DNSRecord → String
  | [] => ""
  | record :: rest =>
    if record.Type_ = recordType ∧ record.Name = recordName then record.ID
    else findRecordID recordType recordName rest

/-- One call of `updateCloudflareRecord` (main.go:41-93) from provider state `s`. -/
def updateCloudflareRecord {σ : Type} (api : API σ) (s : σ)
    (zoneID recordName recordType newIP currentIP : String) : Run σ :=
  if newIP = currentIP then
    ⟨[], s, .running⟩
  else
    match api.ListDNSRecords s zoneID ListDNSRecordsParams.zero with
    | (.error _, s1) =>
      ⟨[.ListDNSRecords zoneID ListDNSRecordsParams.zero true, .fatal], s1, .exited⟩
    | (.ok records, s1) =>
      let recordID := findRecordID recordType recordName records
      if recordID = "" then
        let nr : CreateDNSRecordParams := ⟨recordType, recordName, newIP⟩
        match api.CreateDNSRecord s1 zoneID nr with
        | (.error _, s2) =>
          ⟨[.ListDNSRecords zoneID ListDNSRecordsParams.zero false,
            .CreateDNSRecord zoneID nr true, .fatal], s2, .exited⟩
        | (.ok _, s2) =>
          ⟨[.ListDNSRecords zoneID ListDNSRecordsParams.zero false,
            .CreateDNSRecord zoneID nr false], s2, .running⟩
      else
        let updatedRecord : UpdateDNSRecordParams := ⟨recordType, recordName, newIP, recordID⟩
        match api.UpdateDNSRecord s1 zoneID updatedRecord with
        | (.error _, s2) =>
          ⟨[.ListDNSRecords zoneID ListDNSRecordsParams.zero false,
            .UpdateDNSRecord zoneID updatedRecord true, .fatal], s2, .exited⟩
        | (.ok _, s2) =>
          ⟨[.ListDNSRecords zoneID ListDNSRecordsParams.zero false,
            .UpdateDNSRecord zoneID updatedRecord false], s2, .running⟩

/-! ## Reading a trace -/

/-- The list calls of a trace: zone and parameters of each, in order. -/
def listCalls : List Event → List (String × ListDNSRecordsParams)
  | [] => []
  | .ListDNSRecords z p _ :: es => (z, p) :: listCalls es
  | _ :: es => listCalls es

/-- The create calls of a trace: zone and parameters of each, in order. -/
def createCalls : List Event → List (String × CreateDNSRecordParams)
  | [] => []
  | .CreateDNSRecord z p _ :: es => (z, p) :: createCalls es
  | _ :: es => createCalls es

/-- The update calls of a trace: zone and parameters of each, in order. -/
def updateCalls : List Event → List (String × UpdateDNSRecordParams)
  | [] => []
  | .UpdateDNSRecord z p _ :: es => (z, p) :: updateCalls es
  | _ :: es => updateCalls es

/-- A call to the DNS record directory (list, create or update). -/
def Event.isDirectoryCall : Event → Bool
  | .ListDNSRecords _ _ _ => true
  | .CreateDNSRecord _ _ _ => true
  | .UpdateDNSRecord _ _ _ => true
  | _ => false

/-- A directory call that returned an error. -/
def Event.isFailedDirectoryCall : Event → Bool
  | .ListDNSRecords _ _ f => f
  | .CreateDNSRecord _ _ f => f
  | .UpdateDNSRecord _ _ f => f
  | _ => false

/-- A create or update call that returned without error. -/
def Event.isSuccessfulWrite : Event → Bool
  | .CreateDNSRecord _ _ f => !f
  | .UpdateDNSRecord _ _ f => !f
  | _ => false

/-- A create or update call. -/
def Event.isWrite : Event → Bool
  | .CreateDNSRecord _ _ _ => true
  | .UpdateDNSRecord _ _ _ => true
  | _ => false

/-- The record IDs that the calls of a trace carry. Only update calls carry one. -/
def carriedIDs (es : List Event) : List String :=
  (updateCalls es).map (fun c => c.2.ID)

/-! ## The loop of `runService` (main.go:117-133) -/

/-- The part of the zone configuration that the loop passes on: `zoneID`,
`recordName`, `recordType` of main.go:98-100. -/
structure Config where
  zoneID : String
  recordName : String
  recordType : String
  deriving DecidableEq, Repr

/-- The state across iterations: the variable `currentIP` of main.go:117 (the
Last-Applied IP) and the provider state. -/
structure LoopState (σ : Type) where
  currentIP : String
  api : σ

/-- Result of running iterations of the loop. -/
structure LoopRun (σ : Type) where
  events : List Event
  state : LoopState σ
  status : Status

/-- One iteration of the `for` loop (main.go:121-132). `resolved` is what
`getPublicIP()` returned in this iteration. On a resolver error the iteration
waits for the ticker and continues. Otherwise `updateCloudflareRecord` runs;
when it returns, `currentIP = newIP` is executed and the iteration waits for the
ticker; when it ends in `log.Fatalf` the assignment is never reached. -/
def cycle {σ : Type} (api : API σ) (cfg : Config) (st : LoopState σ)
    (resolved : Except String String) : LoopRun σ :=
  match resolved with
  | .error _ => ⟨[.getPublicIP true, .tick], st, .running⟩
  | .ok newIP =>
    let r := updateCloudflareRecord api st.api cfg.zoneID cfg.recordName cfg.recordType
      newIP st.currentIP
    match r.status with
    | .exited => ⟨.getPublicIP false :: r.events, ⟨st.currentIP, r.api⟩, .exited⟩
    | .running => ⟨.getPublicIP false :: (r.events ++ [.tick]), ⟨newIP, r.api⟩, .running⟩

/-- The `for` loop run over a finite sequence of resolver outcomes, one per
iteration. The loop has no exit of its own: it stops early only when an
iteration ends in `log.Fatalf`. -/
def runLoop {σ : Type} (api : API σ) (cfg : Config) :
    List (Except String String) → LoopState σ → LoopRun σ
  | [], st => ⟨[], st, .running⟩
  | resolved :: rest, st =>
    let c := cycle api cfg st resolved
    match c.status with
    | .exited => c
    | .running =>
      let r := runLoop api cfg rest c.state
      ⟨c.events ++ r.events, r.state, r.status⟩

/-- The loop of `runService` from its initial state: `var currentIP string`
(main.go:117) is the empty string. -/
def runService {σ : Type} (api : API σ) (cfg : Config) (s0 : σ)
    (resolutions : List (Except String String)) : LoopRun σ :=
  runLoop api cfg resolutions ⟨"", s0⟩

/-! ## Interval handling of `runService` (main.go:101-106) -/

/-- The constant `time.Minute` of Go, in nanoseconds. -/
def Minute : Int := 60 * 1000000000

/-- Wrap-around (modulo 2 ^ 64) of an integer to signed 64 bits. -/
def wrapInt64 (x : Int) : Int := (x + 2 ^ 63) % 2 ^ 64 - 2 ^ 63

/-- The expression `time.Duration(updateInterval) * time.Minute` of main.go:106,
in `int64` arithmetic. -/
def tickerPeriod (updateInterval : Int) : Int :=
  wrapInt64 (wrapInt64 updateInterval * Minute)

/-- How startup leaves main.go:101-106. -/
inductive Startup where
  | fatal
  | panicked
  | ticking (period : Int)
  deriving DecidableEq, Repr

/-- Lines 101-106 of main.go. `atoi` is what `strconv.Atoi(os.Getenv("INTERVAL"))`
returned. An error is fatal. Otherwise `time.NewTicker` is called with
`tickerPeriod updateInterval`; `time.NewTicker` panics when its argument is not
strictly positive. -/
def intervalHandling (atoi : Except String Int) : Startup :=
  match atoi with
  | .error _ => .fatal
  | .ok updateInterval =>
    let d := tickerPeriod updateInterval
    if d ≤ 0 then .panicked else .ticking d

/-! ## A directory that is a list of records -/

/-- Provider state of the list model: the records of the zone in provider order,
and a script saying for each coming call whether it fails (no entry left: the
call succeeds). -/
structure Directory where
  records : List DNSRecord
  failures : List Bool
  deriving DecidableEq, Repr

/-- Whether the next call fails, and the state with that script entry used up. -/
def Directory.next (d : Directory) : Bool × Directory :=
  match d.failures with
  | [] => (false, d)
  | f :: fs => (f, ⟨d.records, fs⟩)

/-- A record passes a list filter when every non-empty filter field equals the
field of the record. -/
def passesFilter (p : ListDNSRecordsParams) (r : DNSRecord) : Bool :=
  (p.Type_ = "" ∨ r.Type_ = p.Type_) ∧ (p.Name = "" ∨ r.Name = p.Name) ∧
    (p.Content = "" ∨ r.Content = p.Content)

/-- Replace the attributes of the record with the given ID; `none` when there is
no such record. -/
def replaceRecord (p : UpdateDNSRecordParams) : List DNSRecord → Option (List DNSRecord)
  | [] => none
  | r :: rs =>
    if r.ID = p.ID then some (⟨r.ID, p.Type_, p.Name, p.Content⟩ :: rs)
    else (replaceRecord p rs).map (fun rs1 => r :: rs1)

/-- The list model of the directory: list returns the current records that pass
the filter, create appends a record (with the ID `freshID` picks), update
replaces the attributes of the record with the given ID. A call that fails
changes no record. The model holds one zone, and the zone identifier is ignored. -/
def directoryAPI (freshID : List DNSRecord → String) : API Directory where
  ListDNSRecords d _ p :=
    match d.next with
    | (true, d1) => (.error "list failed", d1)
    | (false, d1) => (.ok (d1.records.filter (passesFilter p)), d1)
  CreateDNSRecord d _ p :=
    match d.next with
    | (true, d1) => (.error "create failed", d1)
    | (false, d1) =>
      let r : DNSRecord := ⟨freshID d1.records, p.Type_, p.Name, p.Content⟩
      (.ok r, ⟨d1.records ++ [r], d1.failures⟩)
  UpdateDNSRecord d _ p :=
    match d.next with
    | (true, d1) => (.error "update failed", d1)
    | (false, d1) =>
      match replaceRecord p d1.records with
      | none => (.error "record not found", d1)
      | some rs => (.ok ⟨p.ID, p.Type_, p.Name, p.Content⟩, ⟨rs, d1.failures⟩)

/-- The first record, in list order, with the given type and name. -/
def firstMatch (recordType recordName : String) (records : List DNSRecord) : Option DNSRecord :=
  records.find? (fun r => decide (r.Type_ = recordType ∧ r.Name = recordName))

/-- The IDs of a directory are non-empty and pairwise distinct. -/
def WellFormed (records : List DNSRecord) : Prop :=
  (∀ r ∈ records, r.ID ≠ "") ∧ (records.map (fun r => r.ID)).Nodup

/-! ## Counting, as the call-count property words it -/

/-- The number of list calls in a trace. -/
def countLists (es : List Event) : Nat := (listCalls es).length

/-- The number of write calls (create or update) in a trace. -/
def countWrites (es : List Event) : Nat := (createCalls es).length + (updateCalls es).length

/-- The number of successful resolutions whose text differs from the most recent
earlier successful resolution, `prev` being that text at the start (the empty
text when there is none). Failed resolutions are passed over and leave `prev`
as it is. -/
def changedResolutions (prev : String) : List (Except String String) → Nat
  | [] => 0
  | .error _ :: rest => changedResolutions prev rest
  | .ok ip :: rest => (if ip = prev then 0 else 1) + changedResolutions ip rest

/-! ## Concrete inputs -/

/-- An ID supply for the list model: the created record gets the ID "new". -/
def exampleFreshID : List DNSRecord → String := fun _ => "new"

/-- The list model of the directory with `exampleFreshID`. -/
def exampleAPI : API Directory := directoryAPI exampleFreshID

/-- The configuration of the scenarios of the specification. -/
def exampleConfig : Config := ⟨"zone", "home.example.com", "A"⟩

/-! ## Lemmas on the scan -/

theorem findRecordID_of_firstMatch_some (t n : String) (records : List DNSRecord) (r : DNSRecord)
    (h : firstMatch t n records = some r) : findRecordID t n records = r.ID := by
  induction records with
  | nil => simp [firstMatch] at h
  | cons x xs ih =>
    by_cases hx : x.Type_ = t ∧ x.Name = n
    · have hr : x = r := by simpa [firstMatch, List.find?, hx] using h
      simp [findRecordID, hx, ← hr]
    · have h2 : firstMatch t n xs = some r := by simpa [firstMatch, List.find?, hx] using h
      simpa [findRecordID, hx] using ih h2

theorem findRecordID_of_no_match (t n : String) (records : List DNSRecord)
    (h : ∀ r ∈ records, ¬ (r.Type_ = t ∧ r.Name = n)) : findRecordID t n records = "" := by
  induction records with
  | nil => rfl
  | cons x xs ih =>
    have hx : ¬ (x.Type_ = t ∧ x.Name = n) := h x (List.mem_cons_self _ _)
    have hxs : ∀ r ∈ xs, ¬ (r.Type_ = t ∧ r.Name = n) :=
      fun r hr => h r (List.mem_cons_of_mem _ hr)
    simpa [findRecordID, hx] using ih hxs

theorem firstMatch_append_cons (t n : String) (pre post : List DNSRecord) (first : DNSRecord)
    (hpre : ∀ r ∈ pre, ¬ (r.Type_ = t ∧ r.Name = n)) (hfirst : first.Type_ = t ∧ first.Name = n) :
    firstMatch t n (pre ++ first :: post) = some first := by
  induction pre with
  | nil => simp [firstMatch, List.find?, hfirst]
  | cons x xs ih =>
    have hx : ¬ (x.Type_ = t ∧ x.Name = n) := hpre x (List.mem_cons_self _ _)
    have hxs : ∀ r ∈ xs, ¬ (r.Type_ = t ∧ r.Name = n) :=
      fun r hr => hpre r (List.mem_cons_of_mem _ hr)
    have := ih hxs
    simpa [firstMatch, List.find?, hx] using this

theorem firstMatch_some_of_mem (t n : String) (records : List DNSRecord)
    (h : ∃ r ∈ records, r.Type_ = t ∧ r.Name = n) :
    ∃ r, firstMatch t n records = some r ∧ r ∈ records ∧ r.Type_ = t ∧ r.Name = n := by
  induction records with
  | nil => simp at h
  | cons x xs ih =>
    by_cases hx : x.Type_ = t ∧ x.Name = n
    · exact ⟨x, by simp [firstMatch, List.find?, hx], List.mem_cons_self _ _, hx⟩
    · obtain ⟨r, hr, hm⟩ := h
      have hr2 : r ∈ xs := by
        rcases List.mem_cons.mp hr with h1 | h1
        · exact absurd (h1 ▸ hm) hx
        · exact h1
      obtain ⟨q, hq, hqm, hqp⟩ := ih ⟨r, hr2, hm⟩
      exact ⟨q, by simpa [firstMatch, List.find?, hx] using hq, List.mem_cons_of_mem _ hqm, hqp⟩

/-! ## Lemmas on `updateCloudflareRecord` -/

theorem updateCloudflareRecord_same {σ : Type} (api : API σ) (s : σ)
    (zoneID recordName recordType ip : String) :
    updateCloudflareRecord api s zoneID recordName recordType ip ip = ⟨[], s, .running⟩ := by
  simp [updateCloudflareRecord]

theorem updateCloudflareRecord_create {σ : Type} (api : API σ) (s s1 : σ)
    (zoneID recordName recordType newIP currentIP : String) (records : List DNSRecord)
    (hne : newIP ≠ currentIP)
    (hlist : api.ListDNSRecords s zoneID ListDNSRecordsParams.zero = (.ok records, s1))
    (hid : findRecordID recordType recordName records = "") :
    ∃ failed,
      updateCloudflareRecord api s zoneID recordName recordType newIP currentIP =
        ⟨[.ListDNSRecords zoneID ListDNSRecordsParams.zero false,
          .CreateDNSRecord zoneID ⟨recordType, recordName, newIP⟩ failed] ++
            (if failed then [.fatal] else []),
         (api.CreateDNSRecord s1 zoneID ⟨recordType, recordName, newIP⟩).2,
         if failed then .exited else .running⟩ := by
  rcases hc : api.CreateDNSRecord s1 zoneID ⟨recordType, recordName, newIP⟩ with ⟨res, s2⟩
  cases res with
  | error e => exact ⟨true, by simp [updateCloudflareRecord, hne, hlist, hid, hc]⟩
  | ok r => exact ⟨false, by simp [updateCloudflareRecord, hne, hlist, hid, hc]⟩

theorem updateCloudflareRecord_update {σ : Type} (api : API σ) (s s1 : σ)
    (zoneID recordName recordType newIP currentIP : String) (records : List DNSRecord)
    (hne : newIP ≠ currentIP)
    (hlist : api.ListDNSRecords s zoneID ListDNSRecordsParams.zero = (.ok records, s1))
    (hid : findRecordID recordType recordName records ≠ "") :
    ∃ failed,
      updateCloudflareRecord api s zoneID recordName recordType newIP currentIP =
        ⟨[.ListDNSRecords zoneID ListDNSRecordsParams.zero false,
          .UpdateDNSRecord zoneID
            ⟨recordType, recordName, newIP, findRecordID recordType recordName records⟩ failed] ++
            (if failed then [.fatal] else []),
         (api.UpdateDNSRecord s1 zoneID
            ⟨recordType, recordName, newIP, findRecordID recordType recordName records⟩).2,
         if failed then .exited else .running⟩ := by
  rcases hc : api.UpdateDNSRecord s1 zoneID
    ⟨recordType, recordName, newIP, findRecordID recordType recordName records⟩ with ⟨res, s2⟩
  cases res with
  | error e => exact ⟨true, by simp [updateCloudflareRecord, hne, hlist, hid, hc]⟩
  | ok r => exact ⟨false, by simp [updateCloudflareRecord, hne, hlist, hid, hc]⟩

theorem updateCloudflareRecord_list_failed {σ : Type} (api : API σ) (s s1 : σ)
    (zoneID recordName recordType newIP currentIP : String) (e : String)
    (hne : newIP ≠ currentIP)
    (hlist : api.ListDNSRecords s zoneID ListDNSRecordsParams.zero = (.error e, s1)) :
    updateCloudflareRecord api s zoneID recordName recordType newIP currentIP =
      ⟨[.ListDNSRecords zoneID ListDNSRecordsParams.zero true, .fatal], s1, .exited⟩ := by
  simp [updateCloudflareRecord, hne, hlist]

theorem calls_of_first_match {σ : Type} (api : API σ) (s s1 : σ)
    (zoneID recordName recordType newIP currentIP : String)
    (records : List DNSRecord) (r : DNSRecord)
    (hne : newIP ≠ currentIP)
    (hlist : api.ListDNSRecords s zoneID ListDNSRecordsParams.zero = (.ok records, s1))
    (hfirst : firstMatch recordType recordName records = some r)
    (hid : r.ID ≠ "") :
    updateCalls (updateCloudflareRecord api s zoneID recordName recordType newIP currentIP).events
        = [(zoneID, ⟨recordType, recordName, newIP, r.ID⟩)] ∧
    createCalls (updateCloudflareRecord api s zoneID recordName recordType newIP currentIP).events
        = [] := by
  have hf := findRecordID_of_firstMatch_some recordType recordName records r hfirst
  obtain ⟨failed, h⟩ := updateCloudflareRecord_update api s s1 zoneID recordName recordType
    newIP currentIP records hne hlist (by rw [hf]; exact hid)
  rw [h, hf]
  cases failed <;> simp [updateCalls, createCalls]

/-! ## Update path (C1) -/

/-- C1, as stated, fails: the list call returns one record with the configured
type and name whose ID is the empty string, `newIP` differs from `previousIP`,
and the cycle issues one create call and no update call. -/
theorem update_when_match_counterexample :
    ("203.0.113.5" : String) ≠ "" ∧
    exampleAPI.ListDNSRecords ⟨[⟨"", "A", "home.example.com", "198.51.100.7"⟩], []⟩ "zone"
        ListDNSRecordsParams.zero =
      (.ok [⟨"", "A", "home.example.com", "198.51.100.7"⟩],
        ⟨[⟨"", "A", "home.example.com", "198.51.100.7"⟩], []⟩) ∧
    (∃ r ∈ [(⟨"", "A", "home.example.com", "198.51.100.7"⟩ : DNSRecord)],
      r.Type_ = "A" ∧ r.Name = "home.example.com") ∧
    updateCalls (updateCloudflareRecord exampleAPI
        ⟨[⟨"", "A", "home.example.com", "198.51.100.7"⟩], []⟩
        "zone" "home.example.com" "A" "203.0.113.5" "").events = [] ∧
    createCalls (updateCloudflareRecord exampleAPI
        ⟨[⟨"", "A", "home.example.com", "198.51.100.7"⟩], []⟩
        "zone" "home.example.com" "A" "203.0.113.5" "").events =
      [("zone", ⟨"A", "home.example.com", "203.0.113.5"⟩)] :=
  ⟨by decide, rfl, by decide, by decide, by decide⟩

/-- C1, amended: when `newIP` differs from `previousIP`, the list call succeeds
and the first record in list order with the configured type and name has a
non-empty ID, the cycle issues exactly one update call, which carries the
ID of that record with type = configured type, name = configured name and
content = `newIP`, and it issues no create call. -/
theorem update_when_first_match_has_id {σ : Type} (api : API σ) (s s1 : σ)
    (zoneID recordName recordType newIP currentIP : String)
    (records : List DNSRecord) (r : DNSRecord)
    (hne : newIP ≠ currentIP)
    (hlist : api.ListDNSRecords s zoneID ListDNSRecordsParams.zero = (.ok records, s1))
    (hfirst : firstMatch recordType recordName records = some r)
    (hid : r.ID ≠ "") :
    updateCalls (updateCloudflareRecord api s zoneID recordName recordType newIP currentIP).events
        = [(zoneID, ⟨recordType, recordName, newIP, r.ID⟩)] ∧
    createCalls (updateCloudflareRecord api s zoneID recordName recordType newIP currentIP).events
        = [] :=
  calls_of_first_match api s s1 zoneID recordName recordType newIP currentIP records r
    hne hlist hfirst hid

theorem update_when_first_match_has_id_witness :
    updateCalls (updateCloudflareRecord exampleAPI
        ⟨[⟨"abc123", "A", "home.example.com", "203.0.113.5"⟩], []⟩
        "zone" "home.example.com" "A" "203.0.113.9" "203.0.113.5").events
        = [("zone", ⟨"A", "home.example.com", "203.0.113.9", "abc123"⟩)] ∧
    createCalls (updateCloudflareRecord exampleAPI
        ⟨[⟨"abc123", "A", "home.example.com", "203.0.113.5"⟩], []⟩
        "zone" "home.example.com" "A" "203.0.113.9" "203.0.113.5").events
        = [] :=
  update_when_first_match_has_id exampleAPI
    ⟨[⟨"abc123", "A", "home.example.com", "203.0.113.5"⟩], []⟩
    ⟨[⟨"abc123", "A", "home.example.com", "203.0.113.5"⟩], []⟩
    "zone" "home.example.com" "A" "203.0.113.9" "203.0.113.5"
    [⟨"abc123", "A", "home.example.com", "203.0.113.5"⟩]
    ⟨"abc123", "A", "home.example.com", "203.0.113.5"⟩
    (by decide) rfl (by decide) (by decide)

/-! ## Create path (C2) -/

/-- C2: when `newIP` differs from `previousIP`, the list call succeeds and no
returned record has both the configured type and the configured name, the cycle
issues exactly one create call with type = configured type, name = configured
name and content = `newIP`, and no update call. -/
theorem create_when_no_match {σ : Type} (api : API σ) (s s1 : σ)
    (zoneID recordName recordType newIP currentIP : String) (records : List DNSRecord)
    (hne : newIP ≠ currentIP)
    (hlist : api.ListDNSRecords s zoneID ListDNSRecordsParams.zero = (.ok records, s1))
    (hnone : ∀ r ∈ records, ¬ (r.Type_ = recordType ∧ r.Name = recordName)) :
    createCalls (updateCloudflareRecord api s zoneID recordName recordType newIP currentIP).events
        = [(zoneID, ⟨recordType, recordName, newIP⟩)] ∧
    updateCalls (updateCloudflareRecord api s zoneID recordName recordType newIP currentIP).events
        = [] := by
  obtain ⟨failed, h⟩ := updateCloudflareRecord_create api s s1 zoneID recordName recordType
    newIP currentIP records hne hlist
    (findRecordID_of_no_match recordType recordName records hnone)
  rw [h]
  cases failed <;> simp [updateCalls, createCalls]

theorem create_when_no_match_witness :
    createCalls (updateCloudflareRecord exampleAPI
        ⟨[⟨"x1", "AAAA", "home.example.com", "2001:db8::1"⟩], []⟩
        "zone" "home.example.com" "A" "203.0.113.5" "").events
        = [("zone", ⟨"A", "home.example.com", "203.0.113.5"⟩)] ∧
    updateCalls (updateCloudflareRecord exampleAPI
        ⟨[⟨"x1", "AAAA", "home.example.com", "2001:db8::1"⟩], []⟩
        "zone" "home.example.com" "A" "203.0.113.5" "").events
        = [] :=
  create_when_no_match exampleAPI
    ⟨[⟨"x1", "AAAA", "home.example.com", "2001:db8::1"⟩], []⟩
    ⟨[⟨"x1", "AAAA", "home.example.com", "2001:db8::1"⟩], []⟩
    "zone" "home.example.com" "A" "203.0.113.5" ""
    [⟨"x1", "AAAA", "home.example.com", "2001:db8::1"⟩]
    (by decide) rfl (by decide)

/-! ## Tie-break (C4) -/

/-- C4: the returned list has non-empty, pairwise distinct IDs and splits as
`pre ++ first :: post`, where no record of `pre` has the configured type and
name, `first` has them, and so does some record of `post` (two or more matches).
Then a cycle with `newIP` different from `previousIP` issues no create call and
exactly one update call, carrying the ID of `first`; no call carries the ID of a
later matching record. -/
theorem tie_break_first_match {σ : Type} (api : API σ) (s s1 : σ)
    (zoneID recordName recordType newIP currentIP : String)
    (pre post : List DNSRecord) (first : DNSRecord)
    (hne : newIP ≠ currentIP)
    (hlist : api.ListDNSRecords s zoneID ListDNSRecordsParams.zero
      = (.ok (pre ++ first :: post), s1))
    (hwf : WellFormed (pre ++ first :: post))
    (hpre : ∀ r ∈ pre, ¬ (r.Type_ = recordType ∧ r.Name = recordName))
    (hfirst : first.Type_ = recordType ∧ first.Name = recordName)
    (hmore : ∃ r ∈ post, r.Type_ = recordType ∧ r.Name = recordName) :
    createCalls (updateCloudflareRecord api s zoneID recordName recordType newIP currentIP).events
        = [] ∧
    updateCalls (updateCloudflareRecord api s zoneID recordName recordType newIP currentIP).events
        = [(zoneID, ⟨recordType, recordName, newIP, first.ID⟩)] ∧
    ∀ r ∈ post, r.Type_ = recordType ∧ r.Name = recordName →
      r.ID ∉ carriedIDs
        (updateCloudflareRecord api s zoneID recordName recordType newIP currentIP).events := by
  obtain ⟨_, _, _⟩ := hmore
  have hfm := firstMatch_append_cons recordType recordName pre post first hpre hfirst
  have hid : first.ID ≠ "" := hwf.1 first (by simp)
  obtain ⟨hu, hc⟩ := calls_of_first_match api s s1 zoneID recordName recordType
    newIP currentIP (pre ++ first :: post) first hne hlist hfm hid
  refine ⟨hc, hu, ?_⟩
  intro r hr _
  have hnd := hwf.2
  rw [List.map_append, List.map_cons] at hnd
  have hnd2 := (List.nodup_cons.mp (List.nodup_append.mp hnd).2.1).1
  simp only [carriedIDs, hu, List.map_cons, List.map_nil, List.mem_singleton]
  intro heq
  exact hnd2 (List.mem_map.mpr ⟨r, hr, heq⟩)

theorem tie_break_first_match_witness :
    createCalls (updateCloudflareRecord exampleAPI
        ⟨[⟨"m0", "MX", "example.com", "mail"⟩, ⟨"a1", "A", "home.example.com", "198.51.100.1"⟩,
          ⟨"a2", "A", "home.example.com", "198.51.100.2"⟩], []⟩
        "zone" "home.example.com" "A" "203.0.113.9" "203.0.113.5").events = [] ∧
    updateCalls (updateCloudflareRecord exampleAPI
        ⟨[⟨"m0", "MX", "example.com", "mail"⟩, ⟨"a1", "A", "home.example.com", "198.51.100.1"⟩,
          ⟨"a2", "A", "home.example.com", "198.51.100.2"⟩], []⟩
        "zone" "home.example.com" "A" "203.0.113.9" "203.0.113.5").events
      = [("zone", ⟨"A", "home.example.com", "203.0.113.9", "a1"⟩)] ∧
    ∀ r ∈ [(⟨"a2", "A", "home.example.com", "198.51.100.2"⟩ : DNSRecord)],
      r.Type_ = "A" ∧ r.Name = "home.example.com" →
      r.ID ∉ carriedIDs (updateCloudflareRecord exampleAPI
        ⟨[⟨"m0", "MX", "example.com", "mail"⟩, ⟨"a1", "A", "home.example.com", "198.51.100.1"⟩,
          ⟨"a2", "A", "home.example.com", "198.51.100.2"⟩], []⟩
        "zone" "home.example.com" "A" "203.0.113.9" "203.0.113.5").events :=
  tie_break_first_match exampleAPI
    ⟨[⟨"m0", "MX", "example.com", "mail"⟩, ⟨"a1", "A", "home.example.com", "198.51.100.1"⟩,
      ⟨"a2", "A", "home.example.com", "198.51.100.2"⟩], []⟩
    ⟨[⟨"m0", "MX", "example.com", "mail"⟩, ⟨"a1", "A", "home.example.com", "198.51.100.1"⟩,
      ⟨"a2", "A", "home.example.com", "198.51.100.2"⟩], []⟩
    "zone" "home.example.com" "A" "203.0.113.9" "203.0.113.5"
    [⟨"m0", "MX", "example.com", "mail"⟩] [⟨"a2", "A", "home.example.com", "198.51.100.2"⟩]
    ⟨"a1", "A", "home.example.com", "198.51.100.1"⟩
    (by decide) rfl ⟨by decide, by decide⟩ (by decide) (by decide) (by decide)

/-! ## Lemmas on one iteration of the loop -/

theorem cycle_error {σ : Type} (api : API σ) (cfg : Config) (st : LoopState σ) (e : String) :
    cycle api cfg st (.error e) = ⟨[.getPublicIP true, .tick], st, .running⟩ := rfl

theorem cycle_same {σ : Type} (api : API σ) (cfg : Config) (st : LoopState σ) :
    cycle api cfg st (.ok st.currentIP) = ⟨[.getPublicIP false, .tick], st, .running⟩ := by
  simp [cycle, updateCloudflareRecord_same]

/-- The shapes of an iteration in which the resolved IP differs from `currentIP`:
the list call fails; or it succeeds and the one write call fails; or both
succeed. -/
theorem cycle_changed {σ : Type} (api : API σ) (cfg : Config) (st : LoopState σ)
    (newIP : String) (hne : newIP ≠ st.currentIP) :
    (∃ s1, cycle api cfg st (.ok newIP) =
        ⟨[.getPublicIP false, .ListDNSRecords cfg.zoneID ListDNSRecordsParams.zero true, .fatal],
          ⟨st.currentIP, s1⟩, .exited⟩) ∨
    (∃ w s2, w.isWrite = true ∧ w.isFailedDirectoryCall = true ∧
      cycle api cfg st (.ok newIP) =
        ⟨[.getPublicIP false, .ListDNSRecords cfg.zoneID ListDNSRecordsParams.zero false, w,
          .fatal], ⟨st.currentIP, s2⟩, .exited⟩) ∨
    (∃ w s2, w.isWrite = true ∧ w.isSuccessfulWrite = true ∧
      cycle api cfg st (.ok newIP) =
        ⟨[.getPublicIP false, .ListDNSRecords cfg.zoneID ListDNSRecordsParams.zero false, w,
          .tick], ⟨newIP, s2⟩, .running⟩) := by
  rcases hl : api.ListDNSRecords st.api cfg.zoneID ListDNSRecordsParams.zero with ⟨res, s1⟩
  cases res with
  | error e =>
    left
    refine ⟨s1, ?_⟩
    simp [cycle, updateCloudflareRecord_list_failed api st.api s1 cfg.zoneID cfg.recordName
      cfg.recordType newIP st.currentIP e hne hl]
  | ok records =>
    right
    by_cases hid : findRecordID cfg.recordType cfg.recordName records = ""
    · obtain ⟨failed, h⟩ := updateCloudflareRecord_create api st.api s1 cfg.zoneID
        cfg.recordName cfg.recordType newIP st.currentIP records hne hl hid
      cases failed
      · right
        refine ⟨.CreateDNSRecord cfg.zoneID ⟨cfg.recordType, cfg.recordName, newIP⟩ false,
          (api.CreateDNSRecord s1 cfg.zoneID ⟨cfg.recordType, cfg.recordName, newIP⟩).2,
          rfl, rfl, ?_⟩
        simp [cycle, h]
      · left
        refine ⟨.CreateDNSRecord cfg.zoneID ⟨cfg.recordType, cfg.recordName, newIP⟩ true,
          (api.CreateDNSRecord s1 cfg.zoneID ⟨cfg.recordType, cfg.recordName, newIP⟩).2,
          rfl, rfl, ?_⟩
        simp [cycle, h]
    · obtain ⟨failed, h⟩ := updateCloudflareRecord_update api st.api s1 cfg.zoneID
        cfg.recordName cfg.recordType newIP st.currentIP records hne hl hid
      cases failed
      · right
        refine ⟨.UpdateDNSRecord cfg.zoneID ⟨cfg.recordType, cfg.recordName, newIP,
            findRecordID cfg.recordType cfg.recordName records⟩ false,
          (api.UpdateDNSRecord s1 cfg.zoneID ⟨cfg.recordType, cfg.recordName, newIP,
            findRecordID cfg.recordType cfg.recordName records⟩).2, rfl, rfl, ?_⟩
        simp [cycle, h]
      · left
        refine ⟨.UpdateDNSRecord cfg.zoneID ⟨cfg.recordType, cfg.recordName, newIP,
            findRecordID cfg.recordType cfg.recordName records⟩ true,
          (api.UpdateDNSRecord s1 cfg.zoneID ⟨cfg.recordType, cfg.recordName, newIP,
            findRecordID cfg.recordType cfg.recordName records⟩).2, rfl, rfl, ?_⟩
        simp [cycle, h]

theorem cycle_running_currentIP {σ : Type} (api : API σ) (cfg : Config) (st : LoopState σ)
    (newIP : String) (h : (cycle api cfg st (.ok newIP)).status = .running) :
    (cycle api cfg st (.ok newIP)).state.currentIP = newIP := by
  by_cases hne : newIP = st.currentIP
  · subst hne
    rw [cycle_same]
  · rcases cycle_changed api cfg st newIP hne with ⟨s1, h1⟩ | ⟨w, s2, _, _, h1⟩ | ⟨w, s2, _, _, h1⟩
    · rw [h1] at h; cases h
    · rw [h1] at h; cases h
    · rw [h1]

theorem runLoop_cons_exited {σ : Type} (api : API σ) (cfg : Config) (st : LoopState σ)
    (resolved : Except String String) (rest : List (Except String String))
    (h : (cycle api cfg st resolved).status = .exited) :
    runLoop api cfg (resolved :: rest) st = cycle api cfg st resolved := by
  simp only [runLoop]
  split
  · rfl
  · next h2 => rw [h] at h2; cases h2

theorem runLoop_cons_running {σ : Type} (api : API σ) (cfg : Config) (st : LoopState σ)
    (resolved : Except String String) (rest : List (Except String String))
    (h : (cycle api cfg st resolved).status = .running) :
    runLoop api cfg (resolved :: rest) st =
      ⟨(cycle api cfg st resolved).events ++
          (runLoop api cfg rest (cycle api cfg st resolved).state).events,
        (runLoop api cfg rest (cycle api cfg st resolved).state).state,
        (runLoop api cfg rest (cycle api cfg st resolved).state).status⟩ := by
  simp only [runLoop]
  split
  · next h2 => rw [h] at h2; cases h2
  · rfl

/-! ## No call when the IP is unchanged (C3) -/

/-- C3: when `newIP` equals `previousIP` as strings (both may be empty),
`updateCloudflareRecord` makes no directory call at all and leaves the provider
state as it was. In the loop, an iteration that resolves again the IP that the
previous iteration has just applied makes no directory call and changes nothing. -/
theorem no_call_when_unchanged {σ : Type} (api : API σ) (cfg : Config) (s : σ)
    (st : LoopState σ) (zoneID recordName recordType ip newIP : String) :
    updateCloudflareRecord api s zoneID recordName recordType ip ip = ⟨[], s, .running⟩ ∧
    ((cycle api cfg st (.ok newIP)).status = .running →
      cycle api cfg (cycle api cfg st (.ok newIP)).state (.ok newIP) =
        ⟨[.getPublicIP false, .tick], (cycle api cfg st (.ok newIP)).state, .running⟩) := by
  refine ⟨updateCloudflareRecord_same api s zoneID recordName recordType ip, ?_⟩
  intro h
  have hip := cycle_running_currentIP api cfg st newIP h
  have := cycle_same api cfg (cycle api cfg st (.ok newIP)).state
  rw [hip] at this
  exact this

theorem no_call_when_unchanged_witness :
    updateCloudflareRecord exampleAPI ⟨[], []⟩ "zone" "home.example.com" "A"
        "203.0.113.5" "203.0.113.5" = ⟨[], ⟨[], []⟩, .running⟩ ∧
    cycle exampleAPI exampleConfig
        (cycle exampleAPI exampleConfig ⟨"", ⟨[], []⟩⟩ (.ok "203.0.113.5")).state
        (.ok "203.0.113.5") =
      ⟨[.getPublicIP false, .tick],
        (cycle exampleAPI exampleConfig ⟨"", ⟨[], []⟩⟩ (.ok "203.0.113.5")).state, .running⟩ :=
  ⟨(no_call_when_unchanged exampleAPI exampleConfig ⟨[], []⟩ ⟨"", ⟨[], []⟩⟩
      "zone" "home.example.com" "A" "203.0.113.5" "203.0.113.5").1,
   (no_call_when_unchanged exampleAPI exampleConfig ⟨[], []⟩ ⟨"", ⟨[], []⟩⟩
      "zone" "home.example.com" "A" "203.0.113.5" "203.0.113.5").2 (by decide)⟩

/-! ## The list query (C9) -/

/-- C9, as stated, fails: with record type "A" configured and `newIP` different
from `previousIP`, the one list call is scoped to the configured zone but its
type filter is the empty string, not "A". -/
theorem list_query_counterexample :
    ("203.0.113.5" : String) ≠ "" ∧
    listCalls (updateCloudflareRecord exampleAPI ⟨[], []⟩
        "zone" "home.example.com" "A" "203.0.113.5" "").events =
      [("zone", ⟨"", "", ""⟩)] ∧
    ¬ ∃ p : ListDNSRecordsParams, p.Type_ = "A" ∧
      listCalls (updateCloudflareRecord exampleAPI ⟨[], []⟩
        "zone" "home.example.com" "A" "203.0.113.5" "").events = [("zone", p)] := by
  refine ⟨by decide, by decide, ?_⟩
  rintro ⟨p, hp, h⟩
  have h2 : listCalls (updateCloudflareRecord exampleAPI ⟨[], []⟩
        "zone" "home.example.com" "A" "203.0.113.5" "").events =
      [("zone", ⟨"", "", ""⟩)] := by decide
  rw [h2] at h
  have h3 : p = ⟨"", "", ""⟩ := by
    have := List.head_eq_of_cons_eq h
    exact (congrArg Prod.snd this).symm
  rw [h3] at hp
  exact absurd hp (by decide)

/-- C9, amended: on every cycle with `newIP` different from `previousIP` there is
exactly one list call; it is scoped to the configured zone ID and carries no
filter (every filter field, the type filter included, is empty). Restricting to
the configured record type and name is done by the scan over the returned
records. -/
theorem list_query_unfiltered {σ : Type} (api : API σ) (s : σ)
    (zoneID recordName recordType newIP currentIP : String)
    (hne : newIP ≠ currentIP) :
    listCalls (updateCloudflareRecord api s zoneID recordName recordType newIP currentIP).events
      = [(zoneID, ListDNSRecordsParams.zero)] ∧
    ListDNSRecordsParams.zero = ⟨"", "", ""⟩ := by
  refine ⟨?_, rfl⟩
  rcases hl : api.ListDNSRecords s zoneID ListDNSRecordsParams.zero with ⟨res, s1⟩
  cases res with
  | error e =>
    rw [updateCloudflareRecord_list_failed api s s1 zoneID recordName recordType newIP
      currentIP e hne hl]
    simp [listCalls]
  | ok records =>
    by_cases hid : findRecordID recordType recordName records = ""
    · obtain ⟨failed, h⟩ := updateCloudflareRecord_create api s s1 zoneID recordName
        recordType newIP currentIP records hne hl hid
      rw [h]
      cases failed <;> simp [listCalls]
    · obtain ⟨failed, h⟩ := updateCloudflareRecord_update api s s1 zoneID recordName
        recordType newIP currentIP records hne hl hid
      rw [h]
      cases failed <;> simp [listCalls]

theorem list_query_unfiltered_witness :
    listCalls (updateCloudflareRecord exampleAPI
        ⟨[⟨"abc123", "A", "home.example.com", "203.0.113.5"⟩], []⟩
        "zone" "home.example.com" "A" "203.0.113.9" "203.0.113.5").events
      = [("zone", ListDNSRecordsParams.zero)] ∧
    ListDNSRecordsParams.zero = ⟨"", "", ""⟩ :=
  list_query_unfiltered exampleAPI ⟨[⟨"abc123", "A", "home.example.com", "203.0.113.5"⟩], []⟩
    "zone" "home.example.com" "A" "203.0.113.9" "203.0.113.5" (by decide)

/-! ## Resolver failure (C6) -/

/-- C6: when `getPublicIP` returns an error, the iteration consists of that call
and the wait for the next tick: it makes no directory call, leaves `currentIP`
and the provider state as they were, and the process keeps running; the loop
then runs the following iterations from that same state. -/
theorem resolver_failure_skips_cycle {σ : Type} (api : API σ) (cfg : Config)
    (st : LoopState σ) (e : String) (rest : List (Except String String)) :
    cycle api cfg st (.error e) = ⟨[.getPublicIP true, .tick], st, .running⟩ ∧
    runLoop api cfg (.error e :: rest) st =
      ⟨[.getPublicIP true, .tick] ++ (runLoop api cfg rest st).events,
        (runLoop api cfg rest st).state, (runLoop api cfg rest st).status⟩ := by
  refine ⟨rfl, ?_⟩
  rw [runLoop_cons_running api cfg st (.error e) rest rfl, cycle_error]

/-! ## Directory failure (C7) -/

theorem split_three (a b c : Event) (pre post : List Event) (e : Event)
    (h : [a, b, c] = pre ++ e :: post) :
    (e = a ∧ post = [b, c]) ∨ (e = b ∧ post = [c]) ∨ (e = c ∧ post = []) := by
  rcases pre with _ | ⟨p1, _ | ⟨p2, _ | ⟨p3, _ | ⟨p4, pre⟩⟩⟩⟩ <;> simp at h
  · exact Or.inl ⟨h.1.symm, h.2.symm⟩
  · exact Or.inr (Or.inl ⟨h.2.1.symm, h.2.2.symm⟩)
  · exact Or.inr (Or.inr ⟨h.2.2.1.symm, h.2.2.2⟩)

theorem split_four (a b c d : Event) (pre post : List Event) (e : Event)
    (h : [a, b, c, d] = pre ++ e :: post) :
    (e = a ∧ post = [b, c, d]) ∨ (e = b ∧ post = [c, d]) ∨ (e = c ∧ post = [d]) ∨
      (e = d ∧ post = []) := by
  rcases pre with _ | ⟨p1, pre⟩
  · simp at h
    exact Or.inl ⟨h.1.symm, h.2.symm⟩
  · simp at h
    rcases split_three b c d pre post e h.2 with h1 | h1 | h1
    · exact Or.inr (Or.inl h1)
    · exact Or.inr (Or.inr (Or.inl h1))
    · exact Or.inr (Or.inr (Or.inr h1))

theorem not_failed_of_successful (w : Event) (h : w.isSuccessfulWrite = true) :
    w.isFailedDirectoryCall = false := by
  cases w <;> simp_all [Event.isSuccessfulWrite, Event.isFailedDirectoryCall]

/-- C7: in an iteration whose resolved IP differs from `currentIP`: if the list
call fails, the process terminates and no create or update call was made; and
whichever directory call fails (list, create or update), the process terminates,
the only thing after the failing call is the fatal exit (no further directory
call), `currentIP` keeps its old value, which is not `newIP`, and the loop runs
no further iteration. -/
theorem directory_failure_is_fatal {σ : Type} (api : API σ) (cfg : Config)
    (st : LoopState σ) (newIP : String) (rest : List (Except String String))
    (hne : newIP ≠ st.currentIP) :
    (∀ err s1, api.ListDNSRecords st.api cfg.zoneID ListDNSRecordsParams.zero = (.error err, s1) →
      (cycle api cfg st (.ok newIP)).status = .exited ∧
      createCalls (cycle api cfg st (.ok newIP)).events = [] ∧
      updateCalls (cycle api cfg st (.ok newIP)).events = []) ∧
    (∀ pre e post, (cycle api cfg st (.ok newIP)).events = pre ++ e :: post →
      e.isFailedDirectoryCall = true →
      (cycle api cfg st (.ok newIP)).status = .exited ∧
      post = [.fatal] ∧
      (cycle api cfg st (.ok newIP)).state.currentIP = st.currentIP ∧
      (cycle api cfg st (.ok newIP)).state.currentIP ≠ newIP ∧
      runLoop api cfg (.ok newIP :: rest) st = cycle api cfg st (.ok newIP)) := by
  constructor
  · intro err s1 hl
    have h := updateCloudflareRecord_list_failed api st.api s1 cfg.zoneID cfg.recordName
      cfg.recordType newIP st.currentIP err hne hl
    simp [cycle, h, createCalls, updateCalls]
  · intro pre e post hsplit hfail
    have hstop : (cycle api cfg st (.ok newIP)).status = .exited →
        runLoop api cfg (.ok newIP :: rest) st = cycle api cfg st (.ok newIP) :=
      runLoop_cons_exited api cfg st (.ok newIP) rest
    rcases cycle_changed api cfg st newIP hne with ⟨s1, h1⟩ | ⟨w, s2, _, _, h1⟩ |
      ⟨w, s2, _, hw, h1⟩
    · rw [h1] at hsplit hstop ⊢
      rcases split_three _ _ _ pre post e hsplit with h2 | h2 | h2
      · rw [h2.1] at hfail; simp [Event.isFailedDirectoryCall] at hfail
      · exact ⟨rfl, h2.2, rfl, fun h => hne h.symm, hstop rfl⟩
      · rw [h2.1] at hfail; simp [Event.isFailedDirectoryCall] at hfail
    · rw [h1] at hsplit hstop ⊢
      rcases split_four _ _ _ _ pre post e hsplit with h2 | h2 | h2 | h2
      · rw [h2.1] at hfail; simp [Event.isFailedDirectoryCall] at hfail
      · rw [h2.1] at hfail; simp [Event.isFailedDirectoryCall] at hfail
      · exact ⟨rfl, h2.2, rfl, fun h => hne h.symm, hstop rfl⟩
      · rw [h2.1] at hfail; simp [Event.isFailedDirectoryCall] at hfail
    · rw [h1] at hsplit
      have hw2 := not_failed_of_successful w hw
      rcases split_four _ _ _ _ pre post e hsplit with h2 | h2 | h2 | h2
      · rw [h2.1] at hfail; simp [Event.isFailedDirectoryCall] at hfail
      · rw [h2.1] at hfail; simp [Event.isFailedDirectoryCall] at hfail
      · rw [h2.1, hw2] at hfail; cases hfail
      · rw [h2.1] at hfail; simp [Event.isFailedDirectoryCall] at hfail

theorem directory_failure_is_fatal_witness :
    (cycle exampleAPI exampleConfig ⟨"203.0.113.5", ⟨[], [true]⟩⟩ (.ok "203.0.113.9")).status
      = .exited ∧
    createCalls
      (cycle exampleAPI exampleConfig ⟨"203.0.113.5", ⟨[], [true]⟩⟩ (.ok "203.0.113.9")).events
      = [] ∧
    updateCalls
      (cycle exampleAPI exampleConfig ⟨"203.0.113.5", ⟨[], [true]⟩⟩ (.ok "203.0.113.9")).events
      = [] ∧
    (cycle exampleAPI exampleConfig
      ⟨"203.0.113.5", ⟨[⟨"abc123", "A", "home.example.com", "203.0.113.5"⟩], [false, true]⟩⟩
      (.ok "203.0.113.9")).state.currentIP = "203.0.113.5" ∧
    runLoop exampleAPI exampleConfig [.ok "203.0.113.9", .ok "203.0.113.9"]
      ⟨"203.0.113.5", ⟨[⟨"abc123", "A", "home.example.com", "203.0.113.5"⟩], [false, true]⟩⟩ =
    cycle exampleAPI exampleConfig
      ⟨"203.0.113.5", ⟨[⟨"abc123", "A", "home.example.com", "203.0.113.5"⟩], [false, true]⟩⟩
      (.ok "203.0.113.9") :=
  have h1 := (directory_failure_is_fatal exampleAPI exampleConfig
    ⟨"203.0.113.5", ⟨[], [true]⟩⟩ "203.0.113.9" [] (by decide)).1
      "list failed" ⟨[], []⟩ rfl
  have h2 := (directory_failure_is_fatal exampleAPI exampleConfig
    ⟨"203.0.113.5", ⟨[⟨"abc123", "A", "home.example.com", "203.0.113.5"⟩], [false, true]⟩⟩
    "203.0.113.9" [.ok "203.0.113.9"] (by decide)).2
      [.getPublicIP false, .ListDNSRecords "zone" ListDNSRecordsParams.zero false]
      (.UpdateDNSRecord "zone" ⟨"A", "home.example.com", "203.0.113.9", "abc123"⟩ true)
      [.fatal] (by decide) rfl
  ⟨h1.1, h1.2.1, h1.2.2, h2.2.2.1, h2.2.2.2.2⟩

/-! ## The poll interval (C8) -/

/-- C8, as stated, fails: INTERVAL values that parse as 0, as -5 and as 153722868
do not give a ticker. For 0 and -5 the period is not strictly positive; for
153722868 the product overflows 64 bits and wraps to a negative period. In all
three `time.NewTicker` panics. -/
theorem interval_counterexample :
    intervalHandling (.ok 0) = .panicked ∧
    intervalHandling (.ok (-5)) = .panicked ∧
    intervalHandling (.ok 153722868) = .panicked ∧
    tickerPeriod 153722868 ≠ 153722868 * 60 * 10 ^ 9 := by
  decide

/-- C8, amended: for every INTERVAL value that parses as an integer `n` with
`1 ≤ n ≤ 153722867`, startup passes interval handling with a ticker whose period
is exactly `n` minutes: the 64-bit product equals `n * 60 * 10 ^ 9`, which is
strictly positive and below `2 ^ 63`. -/
theorem interval_in_range (n : Int) (hlo : 1 ≤ n) (hhi : n ≤ 153722867) :
    intervalHandling (.ok n) = .ticking (n * 60 * 10 ^ 9) ∧
    0 < n * 60 * 10 ^ 9 ∧ n * 60 * 10 ^ 9 < 2 ^ 63 := by
  have h1 : wrapInt64 n = n := by
    unfold wrapInt64
    norm_num
    omega
  have h2 : tickerPeriod n = n * 60 * 10 ^ 9 := by
    unfold tickerPeriod
    rw [h1]
    unfold wrapInt64 Minute
    norm_num
    omega
  refine ⟨?_, by norm_num; omega, by norm_num; omega⟩
  have hpos : ¬ (n * 60 * 10 ^ 9 ≤ 0) := by norm_num; omega
  simp only [intervalHandling, h2]
  rw [if_neg hpos]

theorem interval_in_range_witness :
    intervalHandling (.ok 5) = .ticking (5 * 60 * 10 ^ 9) ∧
    0 < (5 : Int) * 60 * 10 ^ 9 ∧ (5 : Int) * 60 * 10 ^ 9 < 2 ^ 63 :=
  interval_in_range 5 (by decide) (by decide)

/-! ## Call counts over many iterations (C10) -/

theorem listCalls_append (xs ys : List Event) :
    listCalls (xs ++ ys) = listCalls xs ++ listCalls ys := by
  induction xs with
  | nil => rfl
  | cons x xs ih => cases x <;> simp [listCalls, ih]

theorem createCalls_append (xs ys : List Event) :
    createCalls (xs ++ ys) = createCalls xs ++ createCalls ys := by
  induction xs with
  | nil => rfl
  | cons x xs ih => cases x <;> simp [createCalls, ih]

theorem updateCalls_append (xs ys : List Event) :
    updateCalls (xs ++ ys) = updateCalls xs ++ updateCalls ys := by
  induction xs with
  | nil => rfl
  | cons x xs ih => cases x <;> simp [updateCalls, ih]

theorem countLists_append (xs ys : List Event) :
    countLists (xs ++ ys) = countLists xs + countLists ys := by
  simp [countLists, listCalls_append]

theorem countWrites_append (xs ys : List Event) :
    countWrites (xs ++ ys) = countWrites xs + countWrites ys := by
  simp [countWrites, createCalls_append, updateCalls_append]
  omega

theorem counts_of_changed_cycle (z : String) (w : Event) (hw : w.isWrite = true) :
    countLists [.getPublicIP false, .ListDNSRecords z ListDNSRecordsParams.zero false, w, .tick]
      = 1 ∧
    countWrites [.getPublicIP false, .ListDNSRecords z ListDNSRecordsParams.zero false, w, .tick]
      = 1 := by
  cases w <;> simp [Event.isWrite] at hw <;>
    simp [countLists, countWrites, listCalls, createCalls, updateCalls]

theorem runLoop_counts {σ : Type} (api : API σ) (cfg : Config)
    (resolutions : List (Except String String)) :
    ∀ st : LoopState σ,
      (∀ e ∈ (runLoop api cfg resolutions st).events, e.isFailedDirectoryCall = false) →
      countLists (runLoop api cfg resolutions st).events
        = changedResolutions st.currentIP resolutions ∧
      countWrites (runLoop api cfg resolutions st).events
        = changedResolutions st.currentIP resolutions := by
  induction resolutions with
  | nil =>
    intro st _
    simp [runLoop, countLists, countWrites, listCalls, createCalls, updateCalls,
      changedResolutions]
  | cons resolved rest ih =>
    intro st hok
    cases resolved with
    | error err =>
      rw [runLoop_cons_running api cfg st (.error err) rest rfl, cycle_error] at hok ⊢
      have hrest := ih st (fun e he => hok e (List.mem_append_right _ he))
      simp only [countLists_append, countWrites_append, changedResolutions]
      simp [countLists, countWrites, listCalls, createCalls, updateCalls] at hrest ⊢
      exact hrest
    | ok ip =>
      by_cases hip : ip = st.currentIP
      · subst hip
        have hrun : (cycle api cfg st (.ok st.currentIP)).status = .running := by
          rw [cycle_same]
        rw [runLoop_cons_running api cfg st (.ok st.currentIP) rest hrun, cycle_same] at hok ⊢
        have hrest := ih st (fun e he => hok e (List.mem_append_right _ he))
        simp only [countLists_append, countWrites_append, changedResolutions]
        simp [countLists, countWrites, listCalls, createCalls, updateCalls] at hrest ⊢
        exact hrest
      · rcases cycle_changed api cfg st ip hip with ⟨s1, h1⟩ | ⟨w, s2, _, hf, h1⟩ |
          ⟨w, s2, hw, _, h1⟩
        · have hex : (cycle api cfg st (.ok ip)).status = .exited := by rw [h1]
          rw [runLoop_cons_exited api cfg st (.ok ip) rest hex, h1] at hok
          have := hok (.ListDNSRecords cfg.zoneID ListDNSRecordsParams.zero true) (by simp)
          simp [Event.isFailedDirectoryCall] at this
        · have hex : (cycle api cfg st (.ok ip)).status = .exited := by rw [h1]
          rw [runLoop_cons_exited api cfg st (.ok ip) rest hex, h1] at hok
          have := hok w (by simp)
          rw [hf] at this
          cases this
        · have hrun : (cycle api cfg st (.ok ip)).status = .running := by rw [h1]
          rw [runLoop_cons_running api cfg st (.ok ip) rest hrun, h1] at hok ⊢
          have hrest := ih ⟨ip, s2⟩ (fun e he => hok e (List.mem_append_right _ he))
          obtain ⟨hc1, hc2⟩ := counts_of_changed_cycle cfg.zoneID w hw
          simp only [countLists_append, countWrites_append, changedResolutions, hc1, hc2,
            if_neg hip]
          exact ⟨by rw [hrest.1], by rw [hrest.2]⟩

/-- C10: the loop is run from the initial empty `currentIP` over any finite
sequence of resolver outcomes, and no directory call of the run fails. Then the
number of list calls and the number of write calls (create or update) both equal
the number of successful resolutions whose text differs from the most recent
earlier successful resolution (from the empty text when there is none); failed
resolutions count for nothing and do not change the text compared against. -/
theorem call_count_over_cycles {σ : Type} (api : API σ) (cfg : Config) (s0 : σ)
    (resolutions : List (Except String String))
    (hok : ∀ e ∈ (runService api cfg s0 resolutions).events, e.isFailedDirectoryCall = false) :
    countLists (runService api cfg s0 resolutions).events
      = changedResolutions "" resolutions ∧
    countWrites (runService api cfg s0 resolutions).events
      = changedResolutions "" resolutions :=
  runLoop_counts api cfg resolutions ⟨"", s0⟩ hok

theorem call_count_over_cycles_witness :
    countLists (runService exampleAPI exampleConfig ⟨[], []⟩
        [.ok "203.0.113.5", .error "timeout", .ok "203.0.113.5", .ok "203.0.113.9"]).events
      = 2 ∧
    countWrites (runService exampleAPI exampleConfig ⟨[], []⟩
        [.ok "203.0.113.5", .error "timeout", .ok "203.0.113.5", .ok "203.0.113.9"]).events
      = 2 ∧
    changedResolutions ""
        [.ok "203.0.113.5", .error "timeout", .ok "203.0.113.5", .ok "203.0.113.9"] = 2 :=
  have h := call_count_over_cycles exampleAPI exampleConfig ⟨[], []⟩
    [.ok "203.0.113.5", .error "timeout", .ok "203.0.113.5", .ok "203.0.113.9"] (by decide)
  ⟨h.1.trans (by decide), h.2.trans (by decide), by decide⟩

/-! ## The invariant of one iteration over the list model (C5) -/

theorem updateCloudflareRecord_create_ok {σ : Type} (api : API σ) (s s1 s2 : σ)
    (zoneID recordName recordType newIP currentIP : String) (records : List DNSRecord)
    (r : DNSRecord) (hne : newIP ≠ currentIP)
    (hlist : api.ListDNSRecords s zoneID ListDNSRecordsParams.zero = (.ok records, s1))
    (hid : findRecordID recordType recordName records = "")
    (hc : api.CreateDNSRecord s1 zoneID ⟨recordType, recordName, newIP⟩ = (.ok r, s2)) :
    updateCloudflareRecord api s zoneID recordName recordType newIP currentIP =
      ⟨[.ListDNSRecords zoneID ListDNSRecordsParams.zero false,
        .CreateDNSRecord zoneID ⟨recordType, recordName, newIP⟩ false], s2, .running⟩ := by
  simp [updateCloudflareRecord, hne, hlist, hid, hc]

theorem updateCloudflareRecord_create_error {σ : Type} (api : API σ) (s s1 s2 : σ)
    (zoneID recordName recordType newIP currentIP : String) (records : List DNSRecord)
    (e : String) (hne : newIP ≠ currentIP)
    (hlist : api.ListDNSRecords s zoneID ListDNSRecordsParams.zero = (.ok records, s1))
    (hid : findRecordID recordType recordName records = "")
    (hc : api.CreateDNSRecord s1 zoneID ⟨recordType, recordName, newIP⟩ = (.error e, s2)) :
    (updateCloudflareRecord api s zoneID recordName recordType newIP currentIP).status
      = .exited := by
  simp [updateCloudflareRecord, hne, hlist, hid, hc]

theorem updateCloudflareRecord_update_ok {σ : Type} (api : API σ) (s s1 s2 : σ)
    (zoneID recordName recordType newIP currentIP : String) (records : List DNSRecord)
    (r : DNSRecord) (hne : newIP ≠ currentIP)
    (hlist : api.ListDNSRecords s zoneID ListDNSRecordsParams.zero = (.ok records, s1))
    (hid : findRecordID recordType recordName records ≠ "")
    (hc : api.UpdateDNSRecord s1 zoneID
      ⟨recordType, recordName, newIP, findRecordID recordType recordName records⟩ = (.ok r, s2)) :
    updateCloudflareRecord api s zoneID recordName recordType newIP currentIP =
      ⟨[.ListDNSRecords zoneID ListDNSRecordsParams.zero false,
        .UpdateDNSRecord zoneID
          ⟨recordType, recordName, newIP, findRecordID recordType recordName records⟩ false],
        s2, .running⟩ := by
  simp [updateCloudflareRecord, hne, hlist, hid, hc]

theorem updateCloudflareRecord_update_error {σ : Type} (api : API σ) (s s1 s2 : σ)
    (zoneID recordName recordType newIP currentIP : String) (records : List DNSRecord)
    (e : String) (hne : newIP ≠ currentIP)
    (hlist : api.ListDNSRecords s zoneID ListDNSRecordsParams.zero = (.ok records, s1))
    (hid : findRecordID recordType recordName records ≠ "")
    (hc : api.UpdateDNSRecord s1 zoneID
      ⟨recordType, recordName, newIP, findRecordID recordType recordName records⟩
        = (.error e, s2)) :
    (updateCloudflareRecord api s zoneID recordName recordType newIP currentIP).status
      = .exited := by
  simp [updateCloudflareRecord, hne, hlist, hid, hc]

theorem Directory.next_records (d d1 : Directory) (f : Bool) (h : d.next = (f, d1)) :
    d1.records = d.records := by
  unfold Directory.next at h
  split at h
  · cases h; rfl
  · cases h; rfl

theorem filter_passesFilter_zero (records : List DNSRecord) :
    records.filter (passesFilter ListDNSRecordsParams.zero) = records := by
  apply List.filter_eq_self.mpr
  intro r _
  simp [passesFilter, ListDNSRecordsParams.zero]

theorem no_match_of_findRecordID_empty (t n : String) (records : List DNSRecord)
    (hids : ∀ r ∈ records, r.ID ≠ "") (h : findRecordID t n records = "") :
    ∀ r ∈ records, ¬ (r.Type_ = t ∧ r.Name = n) := by
  induction records with
  | nil => simp
  | cons x xs ih =>
    have hxid : x.ID ≠ "" := hids x (List.mem_cons_self _ _)
    by_cases hx : x.Type_ = t ∧ x.Name = n
    · simp [findRecordID, hx] at h
      exact absurd h hxid
    · have h2 : findRecordID t n xs = "" := by simpa [findRecordID, hx] using h
      have := ih (fun r hr => hids r (List.mem_cons_of_mem _ hr)) h2
      intro r hr
      rcases List.mem_cons.mp hr with h1 | h1
      · rw [h1]; exact hx
      · exact this r h1

theorem firstMatch_isSome_of_findRecordID (t n : String) (records : List DNSRecord)
    (h : findRecordID t n records ≠ "") :
    ∃ r, firstMatch t n records = some r ∧ r.ID = findRecordID t n records := by
  induction records with
  | nil => simp [findRecordID] at h
  | cons x xs ih =>
    by_cases hx : x.Type_ = t ∧ x.Name = n
    · exact ⟨x, by simp [firstMatch, List.find?, hx], by simp [findRecordID, hx]⟩
    · have h2 : findRecordID t n xs ≠ "" := by simpa [findRecordID, hx] using h
      obtain ⟨r, hr, hrid⟩ := ih h2
      exact ⟨r, by simpa [firstMatch, List.find?, hx] using hr, by simpa [findRecordID, hx] using hrid⟩

theorem replaceRecord_firstMatch (t n c : String) (records : List DNSRecord) (r : DNSRecord)
    (h : firstMatch t n records = some r) :
    ∃ rs, replaceRecord ⟨t, n, c, r.ID⟩ records = some rs ∧
      (firstMatch t n rs).map (fun x => x.Content) = some c := by
  induction records with
  | nil => simp [firstMatch] at h
  | cons x xs ih =>
    by_cases hxid : x.ID = r.ID
    · exact ⟨⟨x.ID, t, n, c⟩ :: xs, by simp [replaceRecord, hxid],
        by simp [firstMatch, List.find?]⟩
    · have hx : ¬ (x.Type_ = t ∧ x.Name = n) := by
        intro hx
        have hr : x = r := by simpa [firstMatch, List.find?, hx] using h
        exact hxid (by rw [hr])
      have h2 : firstMatch t n xs = some r := by simpa [firstMatch, List.find?, hx] using h
      obtain ⟨rs, hrs, hfm⟩ := ih h2
      refine ⟨x :: rs, by simp [replaceRecord, hxid, hrs], ?_⟩
      have : firstMatch t n (x :: rs) = firstMatch t n rs := by
        simp [firstMatch, List.find?, hx]
      rw [this]
      exact hfm

/-- C5: the directory is the list model (`directoryAPI`, for any choice of new
IDs and any script of failing calls) and its IDs are non-empty and pairwise
distinct at the start. After an iteration of the loop that does not end in a
fatal error, either (a) a create or update call succeeded and `currentIP` equals
the content of the first record with the configured type and name (and is the
IP that was resolved), or (b) the iteration was skipped (the resolver failed, or `newIP` equals `currentIP`) and
the directory and `currentIP` are what they were before. -/
theorem cycle_invariant (freshID : List DNSRecord → String) (cfg : Config)
    (st : LoopState Directory) (resolved : Except String String)
    (hwf : WellFormed st.api.records)
    (hrun : (cycle (directoryAPI freshID) cfg st resolved).status = .running) :
    ((∃ e ∈ (cycle (directoryAPI freshID) cfg st resolved).events, e.isSuccessfulWrite = true) ∧
      (firstMatch cfg.recordType cfg.recordName
          (cycle (directoryAPI freshID) cfg st resolved).state.api.records).map
            (fun r => r.Content)
        = some (cycle (directoryAPI freshID) cfg st resolved).state.currentIP ∧
      resolved = .ok (cycle (directoryAPI freshID) cfg st resolved).state.currentIP) ∨
    (((∃ err, resolved = .error err) ∨ resolved = .ok st.currentIP) ∧
      (cycle (directoryAPI freshID) cfg st resolved).state.api = st.api ∧
      (cycle (directoryAPI freshID) cfg st resolved).state.currentIP = st.currentIP) := by
  cases resolved with
  | error err => exact Or.inr ⟨Or.inl ⟨err, rfl⟩, rfl, rfl⟩
  | ok newIP =>
    by_cases hne : newIP = st.currentIP
    · subst hne
      right
      rw [cycle_same]
      exact ⟨Or.inr rfl, rfl, rfl⟩
    · left
      rcases hn : st.api.next with ⟨f, d1⟩
      have hrec1 : d1.records = st.api.records := Directory.next_records _ _ _ hn
      cases f with
      | true =>
        have hl : (directoryAPI freshID).ListDNSRecords st.api cfg.zoneID
            ListDNSRecordsParams.zero = (.error "list failed", d1) := by
          simp [directoryAPI, hn]
        have := updateCloudflareRecord_list_failed (directoryAPI freshID) st.api d1 cfg.zoneID
          cfg.recordName cfg.recordType newIP st.currentIP _ hne hl
        simp [cycle, this] at hrun
      | false =>
        have hl : (directoryAPI freshID).ListDNSRecords st.api cfg.zoneID
            ListDNSRecordsParams.zero = (.ok st.api.records, d1) := by
          simp [directoryAPI, hn, filter_passesFilter_zero, hrec1]
        rcases hn2 : d1.next with ⟨g, d2⟩
        have hrec2 : d2.records = st.api.records :=
          (Directory.next_records _ _ _ hn2).trans hrec1
        by_cases hid : findRecordID cfg.recordType cfg.recordName st.api.records = ""
        · have hnone := no_match_of_findRecordID_empty cfg.recordType cfg.recordName
            st.api.records hwf.1 hid
          cases g with
          | true =>
            have hc : (directoryAPI freshID).CreateDNSRecord d1 cfg.zoneID
                ⟨cfg.recordType, cfg.recordName, newIP⟩ = (.error "create failed", d2) := by
              simp [directoryAPI, hn2]
            have := updateCloudflareRecord_create_error (directoryAPI freshID) st.api d1 d2
              cfg.zoneID cfg.recordName cfg.recordType newIP st.currentIP _ _ hne hl hid hc
            simp [cycle, this] at hrun
          | false =>
            have hc : (directoryAPI freshID).CreateDNSRecord d1 cfg.zoneID
                ⟨cfg.recordType, cfg.recordName, newIP⟩ =
                (.ok ⟨freshID st.api.records, cfg.recordType, cfg.recordName, newIP⟩,
                  ⟨st.api.records ++
                    [⟨freshID st.api.records, cfg.recordType, cfg.recordName, newIP⟩],
                   d2.failures⟩) := by
              simp [directoryAPI, hn2, hrec2]
            have h := updateCloudflareRecord_create_ok (directoryAPI freshID) st.api d1 _
              cfg.zoneID cfg.recordName cfg.recordType newIP st.currentIP _ _ hne hl hid hc
            have hfm := firstMatch_append_cons cfg.recordType cfg.recordName st.api.records []
              ⟨freshID st.api.records, cfg.recordType, cfg.recordName, newIP⟩ hnone ⟨rfl, rfl⟩
            simp only [cycle, h]
            refine ⟨⟨.CreateDNSRecord cfg.zoneID ⟨cfg.recordType, cfg.recordName, newIP⟩ false,
              by simp, rfl⟩, ?_, trivial⟩
            simp [hfm]
        · obtain ⟨r, hr, hrid⟩ := firstMatch_isSome_of_findRecordID cfg.recordType
            cfg.recordName st.api.records hid
          obtain ⟨rs, hrs, hfm⟩ := replaceRecord_firstMatch cfg.recordType cfg.recordName
            newIP st.api.records r hr
          rw [hrid] at hrs
          cases g with
          | true =>
            have hc : (directoryAPI freshID).UpdateDNSRecord d1 cfg.zoneID
                ⟨cfg.recordType, cfg.recordName, newIP,
                  findRecordID cfg.recordType cfg.recordName st.api.records⟩
                = (.error "update failed", d2) := by
              simp [directoryAPI, hn2]
            have := updateCloudflareRecord_update_error (directoryAPI freshID) st.api d1 d2
              cfg.zoneID cfg.recordName cfg.recordType newIP st.currentIP _ _ hne hl hid hc
            simp [cycle, this] at hrun
          | false =>
            have hc : (directoryAPI freshID).UpdateDNSRecord d1 cfg.zoneID
                ⟨cfg.recordType, cfg.recordName, newIP,
                  findRecordID cfg.recordType cfg.recordName st.api.records⟩
                = (.ok ⟨findRecordID cfg.recordType cfg.recordName st.api.records,
                    cfg.recordType, cfg.recordName, newIP⟩, ⟨rs, d2.failures⟩) := by
              simp [directoryAPI, hn2, hrec2, hrs]
            have h := updateCloudflareRecord_update_ok (directoryAPI freshID) st.api d1 _
              cfg.zoneID cfg.recordName cfg.recordType newIP st.currentIP _ _ hne hl hid hc
            simp only [cycle, h]
            refine ⟨⟨.UpdateDNSRecord cfg.zoneID ⟨cfg.recordType, cfg.recordName, newIP,
              findRecordID cfg.recordType cfg.recordName st.api.records⟩ false,
              by simp, rfl⟩, ?_, trivial⟩
            simpa using hfm

theorem cycle_invariant_witness :
    ((∃ e ∈ (cycle exampleAPI exampleConfig
          ⟨"203.0.113.5", ⟨[⟨"m0", "MX", "example.com", "mail"⟩,
            ⟨"abc123", "A", "home.example.com", "203.0.113.5"⟩], []⟩⟩
          (.ok "203.0.113.9")).events, e.isSuccessfulWrite = true) ∧
      (firstMatch exampleConfig.recordType exampleConfig.recordName
          (cycle exampleAPI exampleConfig
            ⟨"203.0.113.5", ⟨[⟨"m0", "MX", "example.com", "mail"⟩,
              ⟨"abc123", "A", "home.example.com", "203.0.113.5"⟩], []⟩⟩
            (.ok "203.0.113.9")).state.api.records).map (fun r => r.Content)
        = some (cycle exampleAPI exampleConfig
            ⟨"203.0.113.5", ⟨[⟨"m0", "MX", "example.com", "mail"⟩,
              ⟨"abc123", "A", "home.example.com", "203.0.113.5"⟩], []⟩⟩
            (.ok "203.0.113.9")).state.currentIP ∧
      (Except.ok "203.0.113.9" : Except String String) = .ok (cycle exampleAPI exampleConfig
            ⟨"203.0.113.5", ⟨[⟨"m0", "MX", "example.com", "mail"⟩,
              ⟨"abc123", "A", "home.example.com", "203.0.113.5"⟩], []⟩⟩
            (.ok "203.0.113.9")).state.currentIP) ∨
    (((∃ err, (Except.ok "203.0.113.9" : Except String String) = .error err) ∨
        (Except.ok "203.0.113.9" : Except String String) = .ok "203.0.113.5") ∧
      (cycle exampleAPI exampleConfig
          ⟨"203.0.113.5", ⟨[⟨"m0", "MX", "example.com", "mail"⟩,
            ⟨"abc123", "A", "home.example.com", "203.0.113.5"⟩], []⟩⟩
          (.ok "203.0.113.9")).state.api =
        ⟨[⟨"m0", "MX", "example.com", "mail"⟩,
            ⟨"abc123", "A", "home.example.com", "203.0.113.5"⟩], []⟩ ∧
      (cycle exampleAPI exampleConfig
          ⟨"203.0.113.5", ⟨[⟨"m0", "MX", "example.com", "mail"⟩,
            ⟨"abc123", "A", "home.example.com", "203.0.113.5"⟩], []⟩⟩
          (.ok "203.0.113.9")).state.currentIP = "203.0.113.5") :=
  cycle_invariant exampleFreshID exampleConfig
    ⟨"203.0.113.5", ⟨[⟨"m0", "MX", "example.com", "mail"⟩,
      ⟨"abc123", "A", "home.example.com", "203.0.113.5"⟩], []⟩⟩
    (.ok "203.0.113.9") ⟨by decide, by decide⟩ (by decide)

end Upd8dns
